import Mathlib

/-!
Verification development for the slack_assistant gateway.

This file gives a shallow embedding, in Lean 4, of the event admission and
dispatch pipeline implemented in `src/main_socket.py`, `src/main_refactored.py`
and `src/main.py`, and proves (or refutes) the specification claims about it.

Modelling conventions:
* Python dictionaries with known fields become structures with `Option` fields
  (`none` models an absent key / `None` value).
* Exceptions become `Except` results; `try/except` becomes a `match` on them.
* Network effects (Slack API calls, HTTP posts, the agent) are modelled as an
  abstract trace of `Act`s; whether a fallible external call succeeds is an
  explicit `Bool`/`Except` parameter of the embedding.
* The shared mutable `processing_tracker` dictionary becomes an association
  list threaded explicitly through each handler.
* Handlers are modelled from the point where their endpoint-specific work
  starts (after transport parsing); signature verification is modelled
  separately as `MainSocket.verify_slack_signature`.
-/

/-- One entry of a Slack history/replies response (`response["messages"]`).
`none` models a missing `"user"` / `"text"` key. -/
structure SlackMsg where
  user : Option String
  text : Option String
  deriving DecidableEq, Repr

/-- The `event` object of an Events API payload. `text` folds in the
`event.get("text", "")` default used by every handler. -/
structure SlackEvent where
  user : Option String
  bot_id : Option String
  type : Option String
  channel : Option String
  channel_type : Option String
  text : String
  thread_ts : Option String
  ts : Option String
  deriving DecidableEq, Repr

/-- Observable side effects of a handler, in execution order. -/
inductive Act where
  | ack
  | ackFailed
  | advisory (channel : String)
  | processingNotice
  | reactAdd (channel : String)
  | responderCall (prompt : String)
  | channelPost (channel text : String) (thread_ts : Option String)
  | responseUrlPost (text : String)
  | apology (channel : String)
  deriving DecidableEq, Repr

/-- The synchronous HTTP body a FastAPI endpoint returns. -/
inductive HttpResp where
  | ephemeral (text : String)
  | okTrue
  | challenge (s : String)
  deriving DecidableEq, Repr

/-- Errors raised by `verify_slack_signature`
(`ValueError("Request too old")` / `ValueError("Invalid Slack signature")`). -/
inductive AuthError where
  | staleRequest
  | invalidSignature
  deriving DecidableEq, Repr

/-- Python f-string interpolation of a possibly-`None` value. -/
def optStr (o : Option String) : String := o.getD "None"

/-- The ASCII whitespace stripped by Python `str.strip()`. -/
def isPySpace (c : Char) : Bool :=
  c == ' ' || c == '\t' || c == '\n' || c == '\r' || c == '\x0b' || c == '\x0c'

/-- Python `str.strip()`. Implemented by structural recursion over the
character list so that the kernel can evaluate it on concrete inputs. -/
def pyStrip (s : String) : String :=
  String.mk (((s.data.dropWhile isPySpace).reverse.dropWhile isPySpace).reverse)

/-- The shared `processing_tracker` dictionary, as an association list. -/
abbrev Tracker := List (String × Bool)

/-- `processing_tracker.get(key)` truthiness (missing key is falsy). -/
def trackerGet (t : Tracker) (k : String) : Bool := (t.lookup k).getD false

/-- `processing_tracker[key] = v`. -/
def trackerSet (t : Tracker) (k : String) (v : Bool) : Tracker :=
  match t with
  | [] => [(k, v)]
  | (k', v') :: rest => if k' == k then (k, v) :: rest else (k', v') :: trackerSet rest k v

/-- The per-message formatting inside the history list comprehensions:
`f"<@{msg['user']}>: {msg['text']}" ... if "user" in msg and "text" in msg`. -/
def formatMsg (m : SlackMsg) : Option String :=
  match m.user, m.text with
  | some u, some t => some ("<@" ++ u ++ ">: " ++ t)
  | _, _ => none

/-- The history list comprehension used by both `main_refactored.py` call
sites: `[fmt(msg) for msg in reversed(response["messages"]) if "user" in msg
and "text" in msg]`. -/
def buildHistoryMessages (msgs : List SlackMsg) : List String :=
  msgs.reverse.filterMap formatMsg

/-- Attribute table of CPython `str` for the method names this codebase
calls on strings. `contains` is not an attribute of `str`, so evaluating
`text.contains(...)` raises `AttributeError`. -/
def strHasAttr (name : String) : Bool :=
  name ∈ ["replace", "strip", "lower", "startswith", "endswith", "split",
          "join", "find", "format", "encode", "decode"]

namespace MainSocket

/-- `verify_slack_signature` from `src/main_socket.py`. `hmacHex secret msg`
abstracts `hmac.new(secret, msg, sha256).hexdigest()`; `now` abstracts
`time.time()` and `ts` the parsed integer timestamp header. -/
def verify_slack_signature (hmacHex : String → String → String)
    (secret : String) (now ts : Int) (body signature : String) :
    Except AuthError Unit :=
  if (now - ts).natAbs > 60 * 5 then
    Except.error AuthError.staleRequest
  else
    let sig_basestring := "v0:" ++ toString ts ++ ":" ++ body
    let my_signature := "v0=" ++ hmacHex secret sig_basestring
    if my_signature == signature then Except.ok ()
    else Except.error AuthError.invalidSignature

/-- `handle_message_event` from `src/main_socket.py`: returns
`(channel, prompt, user, stripped text)` or `None`. `"/indo" in text.lower()`
is modelled by `splitOn` producing more than one piece. -/
def handle_message_event (BOT_USER_ID : String) (event : SlackEvent) :
    Option (Option String × String × String × String) :=
  if event.text == "" || event.user == none || event.bot_id.isSome then none
  else
    let text :=
      if BOT_USER_ID == "" then event.text
      else pyStrip (event.text.replace ("<@" ++ BOT_USER_ID ++ ">") "")
    let prompt :=
      if (text.toLower.splitOn "/indo").length > 1 then
        "Translate this message to Indonesian: " ++ pyStrip (text.replace "/indo" "")
      else if (text.toLower.splitOn "/en").length > 1 then
        "Translate this message to English: " ++ pyStrip (text.replace "/en" "")
      else pyStrip text
    some (event.channel, prompt, optStr event.user, pyStrip text)

/-- Prompt construction of the `/slack/commands` endpoint
(`src/main_socket.py` lines 124-129): any command other than `/indo` and
`/en` falls through to `prompt = text`. -/
def slash_command_prompt (command text : String) : String :=
  if command == "/indo" then "Translate this message to Indonesian: " ++ pyStrip text
  else if command == "/en" then "Translate this message to English: " ++ pyStrip text
  else text

/-- Result of the synchronous part of the `/slack/commands` endpoint: the
HTTP body returned, the tracker after the handler, and the prompt captured
by the scheduled background task (if one was scheduled). -/
structure SlashOutcome where
  resp : HttpResp
  tracker : Tracker
  task : Option String
  deriving DecidableEq, Repr

/-- The dedup/admission portion of `slash_commands` in `src/main_socket.py`
(lines 123-171, after signature verification and form parsing). -/
def slash_commands_dispatch (tracker : Tracker) (command text user_id : String) :
    SlashOutcome :=
  let prompt := slash_command_prompt command text
  if trackerGet tracker user_id then
    { resp := HttpResp.ephemeral "⚠️ Your request is already being processed.",
      tracker := tracker, task := none }
  else
    { resp := HttpResp.ephemeral "⏳ Processing your request...",
      tracker := trackerSet tracker user_id true,
      task := some prompt }

/-- Effects of one background-task run. -/
structure TaskResult where
  tracker : Tracker
  actions : List Act
  deriving DecidableEq, Repr

/-- `run_agent_async` from `src/main_socket.py` (lines 142-164).
`agentRun` abstracts `agent.run` (`Except.error` = the call raised);
`deliveryOk` is whether `requests.post(response_url, ...)` succeeds.
Note that only the success path resets `processing_tracker[user_id]`;
the `except` branch posts an error text and leaves the tracker untouched. -/
def run_agent_async (agentRun : String → Except Unit String) (deliveryOk : Bool)
    (tracker : Tracker) (user_id text prompt : String) : TaskResult :=
  match agentRun prompt with
  | Except.error _ =>
      { tracker := tracker,
        actions := [Act.responderCall prompt,
                    Act.responseUrlPost "⚠️ Error processing your command."] }
  | Except.ok content =>
      let final_text := ">From: <@" ++ user_id ++ ">\n>" ++ pyStrip text
        ++ "\n```\n" ++ pyStrip content ++ "\n```"
      if deliveryOk then
        { tracker := trackerSet tracker user_id false,
          actions := [Act.responderCall prompt,
                      Act.responseUrlPost final_text] }
      else
        { tracker := tracker,
          actions := [Act.responderCall prompt,
                      Act.responseUrlPost "⚠️ Error processing your command."] }

/-- An Events API payload as read by the `/slack/events` endpoint. -/
structure EventsPayload where
  type : Option String
  challenge : Option String
  event : SlackEvent
  deriving DecidableEq, Repr

/-- The `/slack/events` endpoint of `src/main_socket.py` (lines 196-230,
after signature verification): returns the HTTP body, the tracker after the
handler, and the performed actions. Both the success and the `except` branch
reset the tracker here. -/
def slack_events_dispatch (BOT_USER_ID : String)
    (agentRun : String → Except Unit String) (postOk : Bool)
    (tracker : Tracker) (payload : EventsPayload) :
    HttpResp × Tracker × List Act :=
  if payload.type == some "url_verification" then
    (HttpResp.challenge (optStr payload.challenge), tracker, [])
  else
    match handle_message_event BOT_USER_ID payload.event with
    | none => (HttpResp.okTrue, tracker, [])
    | some (channel, prompt, user_id, original_text) =>
      if trackerGet tracker user_id then
        (HttpResp.okTrue, tracker, [])
      else
        let t1 := trackerSet tracker user_id true
        match agentRun prompt with
        | Except.error _ =>
            (HttpResp.okTrue, trackerSet t1 user_id false,
             [Act.responderCall prompt])
        | Except.ok content =>
            let final0 := ">From: <@" ++ user_id ++ ">\n>" ++ original_text
              ++ "\n```\n" ++ pyStrip content ++ "\n```"
            let final_text :=
              pyStrip (final0.replace ("<@" ++ BOT_USER_ID ++ ">") "")
            if postOk then
              (HttpResp.okTrue, trackerSet t1 user_id false,
               [Act.responderCall prompt,
                Act.channelPost (optStr channel) final_text none])
            else
              (HttpResp.okTrue, trackerSet t1 user_id false,
               [Act.responderCall prompt])

end MainSocket

namespace RefactoredMain

/-- `has_valid_subscription` from `src/main_refactored.py` (also present,
identically, in `src/main.py`): a pure membership test against the stubbed
allow-list. -/
def has_valid_subscription (team_id : String) : Bool :=
  team_id ∈ ["T06LP8F3K8V", "T87654321"]

/-- `extract_channel_and_ts` from `src/main_refactored.py`: `re.match` of
`https://([a-zA-Z0-9\-]+)\.slack\.com/archives/([A-Za-z0-9]+)/p([0-9]+)`,
returning the channel and `ts[:10] + "." + ts[10:]`; no match raises
`ValueError("Invalid Slack message URL format")`. -/
def extract_channel_and_ts (url : String) : Except String (String × String) :=
  let bad : Except String (String × String) :=
    Except.error "Invalid Slack message URL format"
  let cs := url.data
  if "https://".data.isPrefixOf cs then
    let r1 := cs.drop 8
    let sub := r1.takeWhile (fun c => c.isAlphanum || c == '-')
    let r2 := r1.drop sub.length
    if sub.length != 0 && ".slack.com/archives/".data.isPrefixOf r2 then
      let r3 := r2.drop 20
      let channel := r3.takeWhile Char.isAlphanum
      let r4 := r3.drop channel.length
      if channel.length != 0 && "/p".data.isPrefixOf r4 then
        let ts := (r4.drop 2).takeWhile Char.isDigit
        if ts.length != 0 then
          Except.ok (String.mk channel,
            String.mk (ts.take 10) ++ "." ++ String.mk (ts.drop 10))
        else bad
      else bad
    else bad
  else bad

/-- `handle_slash_command` from `src/main_refactored.py` (lines 116-186).
`Except.error` models an exception escaping the handler (only
`extract_channel_and_ts` can do that; it is then caught by `process`).
`postOk` is whether the outbound post (`requests.post` / `chat_postMessage`)
succeeds. In the `/summarize` branch every failure after URL extraction is
swallowed by the surrounding `try/except` and the handler just returns. -/
def handle_slash_command (agentRun : String → Except Unit String)
    (fetch : String → String → Except Unit (List SlackMsg)) (postOk : Bool)
    (command : Option String) (text0 : String) (user_id : Option String) :
    Except String (List Act) :=
  let text := pyStrip text0
  if command == some "/indo" || command == some "/en" then
    let prompt :=
      if command == some "/indo" then
        "Translate this message to informal Indonesian: " ++ text
      else
        "Translate this message to English: " ++ text
    match agentRun prompt with
    | Except.error _ =>
        Except.ok [Act.responderCall prompt,
          Act.responseUrlPost
            "⚠️ Sorry, something went wrong while processing your translation request."]
    | Except.ok content =>
        let final_text := ">From: <@" ++ optStr user_id ++ ">\n>" ++ text
          ++ "\n```" ++ pyStrip content ++ "```"
        if postOk then
          Except.ok [Act.responderCall prompt, Act.responseUrlPost final_text]
        else
          Except.ok [Act.responderCall prompt,
            Act.responseUrlPost
              "⚠️ Sorry, something went wrong while processing your translation request."]
  else if command == some "/summarize" then
    match extract_channel_and_ts text with
    | Except.error e => Except.error e
    | Except.ok (channel, message_ts) =>
      match fetch channel message_ts with
      | Except.error _ => Except.ok []
      | Except.ok msgs =>
        if msgs.isEmpty then Except.ok []
        else
          let history_messages := buildHistoryMessages msgs
          let context := String.intercalate "\n" history_messages
          let full_prompt :=
            "Summarize comprehensively, skimmable, but keeping important details.\nThread history:\n"
              ++ context
          match agentRun full_prompt with
          | Except.error _ => Except.ok [Act.responderCall full_prompt]
          | Except.ok content =>
            let final_text := ">From: <@" ++ optStr user_id ++ ">\n>" ++ text
              ++ "\n```" ++ pyStrip content ++ "```"
            if postOk then
              Except.ok [Act.responderCall full_prompt,
                Act.channelPost channel final_text none]
            else
              Except.ok [Act.responderCall full_prompt]
  else
    Except.ok []

/-- `handle_events_api` from `src/main_refactored.py` (lines 192-266).
The `app_mention` branch is split on `strHasAttr "contains"`: in CPython the
test `text.contains("<@U04L9AWRH4Z>")` raises `AttributeError` (the `false`
branch), which the surrounding `try/except` turns into the generic apology
post; the `true` branch mirrors the source lines that would run otherwise. -/
def handle_events_api (BOT_USER_ID : String)
    (agentRun : String → Except Unit String)
    (fetch : String → String → Except Unit (List SlackMsg))
    (postOk reactOk : Bool) (ev : SlackEvent) : List Act :=
  if ev.bot_id.isSome || ev.user == some BOT_USER_ID then []
  else
    let channel := optStr ev.channel
    let text := pyStrip ev.text
    let thread_ts := match ev.thread_ts with | some t => some t | none => ev.ts
    let message_ts := ev.ts
    let react := if reactOk then [Act.reactAdd channel] else []
    react ++
    (if ev.type == some "app_mention" then
      if strHasAttr "contains" then
        let text1 :=
          if (text.splitOn "<@U04L9AWRH4Z>").length > 1 then
            pyStrip (text.replace "<@U04L9AWRH4Z>" "")
          else text
        let history_messages :=
          match fetch channel (optStr message_ts) with
          | Except.ok msgs =>
              if msgs.isEmpty then [] else buildHistoryMessages msgs
          | Except.error _ => []
        let context := String.intercalate "\n" history_messages
        let full_prompt := "Thread history:\n" ++ context
          ++ "\n\nNew message from <@" ++ optStr ev.user ++ ">: " ++ text1
        match agentRun full_prompt with
        | Except.error _ =>
            [Act.responderCall full_prompt, Act.apology channel]
        | Except.ok content =>
            let final_text := ">" ++ text1 ++ "\n<@" ++ optStr ev.user ++ "> "
              ++ pyStrip content
            if postOk then
              [Act.responderCall full_prompt,
               Act.channelPost channel final_text thread_ts]
            else
              [Act.responderCall full_prompt, Act.apology channel]
      else
        [Act.apology channel]
    else if ev.type == some "message" && ev.channel_type == some "im" then
      match agentRun text with
      | Except.error _ => [Act.responderCall text, Act.apology channel]
      | Except.ok content =>
          if postOk then
            [Act.responderCall text, Act.channelPost channel (pyStrip content) thread_ts]
          else
            [Act.responderCall text, Act.apology channel]
    else [])

/-- A `SocketModeRequest` as read by `process`: the request type plus the
payload fields the handlers consult. `team_id` is the tenant identifier the
payload carries; note that `process` never reads it. -/
structure SocketReq where
  type : String
  envelope_id : String
  response_url : Option String
  team_id : Option String
  command : Option String
  text : String
  user_id : Option String
  event : SlackEvent
  deriving Repr

/-- `process` from `src/main_refactored.py` (lines 82-113). `ackOk` is
whether `send_socket_mode_response` succeeds (on failure the handler returns
at once). The subscription gate is applied to the module-global `TEAM_ID`
fetched from `auth_test()` at startup, not to `req.team_id`. Exceptions
escaping the per-type handlers are caught and only logged. -/
def process (TEAM_ID : String) (ackOk : Bool) (BOT_USER_ID : String)
    (agentRun : String → Except Unit String)
    (fetch : String → String → Except Unit (List SlackMsg))
    (postOk reactOk : Bool) (req : SocketReq) : List Act :=
  if !ackOk then [Act.ackFailed]
  else
    Act.ack ::
    (if !has_valid_subscription TEAM_ID then
      match req.event.channel with
      | some ch => [Act.advisory ch]
      | none => []
    else
      (if req.response_url.isSome then [Act.processingNotice] else []) ++
      (if req.type == "slash_commands" then
        match handle_slash_command agentRun fetch postOk req.command req.text req.user_id with
        | Except.ok acts => acts
        | Except.error _ => []
      else if req.type == "events_api" then
        handle_events_api BOT_USER_ID agentRun fetch postOk reactOk req.event
      else []))

end RefactoredMain

namespace MainPy

/-- `handle_events_api` from `src/main.py` (lines 169-266). There is no
bot-origin filter in this variant. `auth_bot_user_id` models
`req.payload["authorizations"][0]["user_id"]`. `Except.error` models an
exception escaping the handler: `reactions_add` runs outside any `try`, and
the direct-message branch wraps neither `agent.run` nor `chat_postMessage`
in one. -/
def handle_events_api (BOT_USER_ID auth_bot_user_id : String)
    (agentRun : String → Except Unit String)
    (reactOk postOk : Bool) (ev : Option SlackEvent) : Except Unit (List Act) :=
  match ev with
  | none => Except.ok [Act.ack]
  | some e =>
    if !reactOk then Except.error ()
    else
      let base := [Act.ack, Act.reactAdd (optStr e.channel)]
      let thread_ts := match e.thread_ts with | some t => some t | none => e.ts
      if e.type == some "app_mention" then
        let mention := "<@" ++ auth_bot_user_id ++ ">"
        let text := e.text
        let channel := optStr e.channel
        let cleaned_text := pyStrip (text.replace mention "")
        match agentRun cleaned_text with
        | Except.error _ =>
            Except.ok (base ++ [Act.responderCall cleaned_text, Act.apology channel])
        | Except.ok content =>
            let final0 := ">" ++ pyStrip text ++ "\n<@" ++ optStr e.user ++ "> "
              ++ pyStrip content ++ "\n"
            let final_text := pyStrip (final0.replace ("<@" ++ BOT_USER_ID ++ ">") "")
            if postOk then
              Except.ok (base ++ [Act.responderCall cleaned_text,
                Act.channelPost channel final_text e.thread_ts])
            else
              Except.ok (base ++ [Act.responderCall cleaned_text, Act.apology channel])
      else if e.type == some "message" && e.channel_type == some "im" then
        let cleaned_text := pyStrip e.text
        match agentRun cleaned_text with
        | Except.error _ => Except.error ()
        | Except.ok content =>
            if postOk then
              Except.ok (base ++ [Act.responderCall cleaned_text,
                Act.channelPost (optStr e.channel)
                  ("DM reply from bot: " ++ pyStrip content) thread_ts])
            else Except.error ()
      else Except.ok base

/-- A `SocketModeRequest` as read by `main.py`'s `process` and
`handle_slash_command`: the request type plus the payload fields those
handlers consult. `event` is `none` when the payload carries no (or an
empty) `event` object, which is falsy in the handlers. `text` assumes the
command transport supplied its `text` field, as it always does. As in the
refactored variant, `team_id` is carried by the payload but never read. -/
structure SocketReq where
  type : String
  envelope_id : String
  response_url : Option String
  team_id : Option String
  command : Option String
  text : String
  user_id : Option String
  channel_id : Option String
  event : Option SlackEvent
  deriving Repr

/-- `handle_slash_command` from `src/main.py` (lines 100-167): an optional
eyes-reaction (outside any `try`; a failure propagates), then two
independent `if command == ...` blocks, each wrapping only the agent call
and the post in `try/except` with a channel-posted apology. -/
def handle_slash_command (agentRun : String → Except Unit String)
    (reactOk postOk : Bool) (req : SocketReq) : Except Unit (List Act) :=
  match req.event with
  | some e =>
    if !reactOk then Except.error ()
    else Except.ok [Act.reactAdd (optStr e.channel)]
  | none => Except.ok []
  |>.map fun react =>
    let indoActs : List Act :=
      if req.command == some "/indo" then
        let prompt := "Translate this message to informal Indonesian: "
          ++ pyStrip req.text
        match agentRun prompt with
        | Except.error _ =>
            [Act.responderCall prompt,
             Act.channelPost (optStr req.channel_id)
               "⚠️ Sorry, something went wrong while processing your translation request." none]
        | Except.ok content =>
            let final_text := ">From: <@" ++ optStr req.user_id ++ ">\n>"
              ++ req.text ++ "\n```" ++ pyStrip content ++ "```"
            if postOk then
              [Act.responderCall prompt,
               Act.channelPost (optStr req.channel_id) final_text none]
            else
              [Act.responderCall prompt,
               Act.channelPost (optStr req.channel_id)
                 "⚠️ Sorry, something went wrong while processing your translation request." none]
      else []
    let enActs : List Act :=
      if req.command == some "/en" then
        let prompt := "Translate this message to English: " ++ pyStrip req.text
        match agentRun prompt with
        | Except.error _ =>
            [Act.responderCall prompt,
             Act.channelPost (optStr req.channel_id)
               "⚠️ Sorry, something went wrong while processing your translation request." none]
        | Except.ok content =>
            let final_text := ">From: <@" ++ optStr req.user_id ++ ">\n>"
              ++ req.text ++ "\n```" ++ pyStrip content ++ "```"
            if postOk then
              [Act.responderCall prompt,
               Act.channelPost (optStr req.channel_id) final_text none]
            else
              [Act.responderCall prompt,
               Act.channelPost (optStr req.channel_id)
                 "⚠️ Sorry, something went wrong while processing your translation request." none]
      else []
    react ++ indoActs ++ enActs

/-- `process` from `src/main.py` (lines 58-97). Returns the actions
performed and whether the handler completed normally (`Except.ok`) or an
exception escaped (`Except.error`; main.py wraps nothing in `try`, so a
failing ack, a failing "Processing..." post to `response_url`, or an
exception out of a sub-handler all propagate — on escape the trace kept
is the one up to the sub-handler call). The ack comes first,
unconditionally; the "Processing..." notice is posted before the
subscription gate, which again consults the module-global `TEAM_ID`; then
both `if request_data.type == ...` dispatches run in sequence. -/
def process (TEAM_ID BOT_USER_ID auth_bot_user_id : String)
    (ackOk noticeOk : Bool)
    (agentRun : String → Except Unit String)
    (reactOk postOk : Bool) (req : SocketReq) : List Act × Except Unit Unit :=
  if !ackOk then ([], Except.error ())
  else if !noticeOk then ([Act.ack], Except.error ())
  else if !RefactoredMain.has_valid_subscription TEAM_ID then
    match (match req.event with | some e => e.channel | none => none) with
    | some ch => ([Act.ack, Act.processingNotice, Act.advisory ch], Except.ok ())
    | none => ([Act.ack, Act.processingNotice], Except.ok ())
  else
    match (if req.type == "events_api" then
             handle_events_api BOT_USER_ID auth_bot_user_id agentRun reactOk postOk req.event
           else Except.ok []) with
    | Except.error e => ([Act.ack, Act.processingNotice], Except.error e)
    | Except.ok acts1 =>
      match (if req.type == "slash_commands" then
               handle_slash_command agentRun reactOk postOk req
             else Except.ok []) with
      | Except.error e =>
          (Act.ack :: Act.processingNotice :: acts1, Except.error e)
      | Except.ok acts2 =>
          (Act.ack :: Act.processingNotice :: (acts1 ++ acts2), Except.ok ())

end MainPy

/-- Modelled from the spec: the ContextAssembler contract for thread
references — "fetch all replies under the root timestamp, oldest first,
filtering out entries lacking both a speaker and text". The fetched reply
list is oldest-first, so the spec-side assembly keeps the fetched order. -/
def assembleSpecOldestFirst (msgs : List SlackMsg) : List String :=
  msgs.filterMap formatMsg

/-! ### Concrete sample inputs used by counterexamples and witnesses -/

/-- An agent stub that echoes the prompt (a successful `agent.run`). -/
def okAgent : String → Except Unit String := fun s => Except.ok s

/-- An agent stub whose `agent.run` raises. -/
def failAgent : String → Except Unit String := fun _ => Except.error ()

/-- A history fetch whose `conversations_replies` call raises. -/
def failFetch : String → String → Except Unit (List SlackMsg) :=
  fun _ _ => Except.error ()

/-- The sample Slack archive URL from the bottom of `main_refactored.py`. -/
def slackUrl : String :=
  "https://benheathworkspace.slack.com/archives/C08L9AWRH4Z/p1743535083057059"

/-- An Events API payload for a direct message from user `U1`. -/
def dupPayload : MainSocket.EventsPayload :=
  { type := some "event_callback", challenge := none,
    event := { user := some "U1", bot_id := none, type := some "message",
               channel := some "C1", channel_type := some "im", text := "hi",
               thread_ts := none, ts := some "1.0" } }

/-- A direct-message event from human user `U2`. -/
def dmEvent : SlackEvent :=
  { user := some "U2", bot_id := none, type := some "message",
    channel := some "C2", channel_type := some "im", text := "price of btc",
    thread_ts := none, ts := some "2.0" }

/-- A socket-mode request whose payload carries the foreign tenant id
`TEVIL`, wrapping `dmEvent`. -/
def dmReq : RefactoredMain.SocketReq :=
  { type := "events_api", envelope_id := "e1", response_url := none,
    team_id := some "TEVIL", command := none, text := "", user_id := none,
    event := dmEvent }

/-- A bot-originated direct message (carries a `bot_id` marker and no
human `user`). -/
def botDmEvent : SlackEvent :=
  { user := none, bot_id := some "B7", type := some "message",
    channel := some "C1", channel_type := some "im", text := "hi",
    thread_ts := none, ts := some "111.222" }

/-- An `app_mention` event from human user `U9`. -/
def mentionEvent : SlackEvent :=
  { user := some "U9", bot_id := none, type := some "app_mention",
    channel := some "C3", channel_type := some "channel", text := "<@B1> hello",
    thread_ts := none, ts := some "3.0" }

/-! ### Claim theorems -/

/-- C1: the claim says `release` runs exactly once on every terminal path.
The code violates it: when `agent.run` raises (or delivery to the
`response_url` fails) inside `run_agent_async`, the `except` branch posts
an error text but never clears `processing_tracker[user_id]`, so the
admitted request is never released and user `U1` stays marked in-flight. -/
theorem run_agent_async_no_release_on_failure :
    (MainSocket.run_agent_async failAgent true
        (trackerSet [] "U1" true) "U1" "hi" "hi").tracker = [("U1", true)]
    ∧ trackerGet (MainSocket.run_agent_async failAgent true
        (trackerSet [] "U1" true) "U1" "hi" "hi").tracker "U1" = true
    ∧ (MainSocket.run_agent_async okAgent false
        (trackerSet [] "U1" true) "U1" "hi" "hi").tracker = [("U1", true)] :=
  ⟨rfl, rfl, rfl⟩

/-- C2 counterexample: a duplicate Events API request from a user already
in flight is answered with the plain `{"ok": True}` body, not with the
"already in progress" advisory the claim promises, though the responder is
indeed not invoked. -/
theorem events_duplicate_gets_plain_ok_not_advisory :
    MainSocket.slack_events_dispatch "B1" okAgent true [("U1", true)] dupPayload
      = (HttpResp.okTrue, [("U1", true)], ([] : List Act))
    ∧ HttpResp.okTrue
        ≠ HttpResp.ephemeral "⚠️ Your request is already being processed." :=
  ⟨rfl, by decide⟩

/-- C2 amended: while a key is in flight, a second request for the same
key never invokes the responder and leaves the tracker unchanged; the
command transport answers with the "already being processed" ephemeral
and schedules no task, while the events transport answers with the plain
ok body and performs no actions. -/
theorem in_flight_duplicate_rejected_without_responder (BOT : String)
    (agentRun : String → Except Unit String) (postOk : Bool)
    (tracker : Tracker) (command text uid : String)
    (payload : MainSocket.EventsPayload)
    (h : trackerGet tracker uid = true)
    (hty : payload.type ≠ some "url_verification")
    (hu : payload.event.user = some uid) :
    (MainSocket.slash_commands_dispatch tracker command text uid).resp
        = HttpResp.ephemeral "⚠️ Your request is already being processed."
    ∧ (MainSocket.slash_commands_dispatch tracker command text uid).task = none
    ∧ (MainSocket.slash_commands_dispatch tracker command text uid).tracker = tracker
    ∧ MainSocket.slack_events_dispatch BOT agentRun postOk tracker payload
        = (HttpResp.okTrue, tracker, []) := by
  refine ⟨?_, ?_, ?_, ?_⟩
  · simp [MainSocket.slash_commands_dispatch, h]
  · simp [MainSocket.slash_commands_dispatch, h]
  · simp [MainSocket.slash_commands_dispatch, h]
  · unfold MainSocket.slack_events_dispatch MainSocket.handle_message_event
    rw [hu]
    by_cases hc : payload.event.text = "" ∨ payload.event.bot_id.isSome = true
    · simp [hty, hc]
    · simp [hty, hc, h, optStr]

/-- C2 witness: instantiates the amended theorem for user `U1` already in
flight, on both transports. -/
theorem in_flight_duplicate_rejected_without_responder_witness :
    trackerGet [("U1", true)] "U1" = true ∧
    ((MainSocket.slash_commands_dispatch [("U1", true)] "/indo" "x" "U1").resp
        = HttpResp.ephemeral "⚠️ Your request is already being processed."
     ∧ (MainSocket.slash_commands_dispatch [("U1", true)] "/indo" "x" "U1").task = none
     ∧ (MainSocket.slash_commands_dispatch [("U1", true)] "/indo" "x" "U1").tracker
        = [("U1", true)]
     ∧ MainSocket.slack_events_dispatch "B1" okAgent true [("U1", true)] dupPayload
        = (HttpResp.okTrue, [("U1", true)], [])) :=
  ⟨by decide,
   in_flight_duplicate_rejected_without_responder "B1" okAgent true [("U1", true)]
     "/indo" "x" "U1" dupPayload (by decide) (by decide) rfl⟩

/-- C3 counterexample: with an unauthorized workspace, `process` still
sends the acknowledgment first and only then posts the subscription
advisory, so the ack is emitted although authorization failed (and no
verification, classification or admission has happened at all). -/
theorem ack_sent_despite_failed_authorization :
    RefactoredMain.has_valid_subscription "TX" = false
    ∧ RefactoredMain.process "TX" true "B1" okAgent failFetch true true dmReq
        = [Act.ack, Act.advisory "C2"] :=
  ⟨by decide, rfl⟩

/-- C3 amended: in both socket-mode dispatchers — `process` of
`main_refactored.py` and `process` of `main.py` — the acknowledgment is
attempted first, unconditionally, before the subscription gate,
classification and admission; whenever it succeeds it is the first action
of the trace, hence precedes any responder call. -/
theorem ack_always_first_action (TEAM_ID BOT auth : String)
    (agentRun agentRun2 : String → Except Unit String)
    (fetch : String → String → Except Unit (List SlackMsg))
    (postOk reactOk noticeOk postOk2 reactOk2 : Bool)
    (req : RefactoredMain.SocketReq) (req2 : MainPy.SocketReq) :
    (RefactoredMain.process TEAM_ID true BOT agentRun fetch postOk reactOk req).head?
      = some Act.ack
    ∧ (MainPy.process TEAM_ID BOT auth true noticeOk agentRun2
        reactOk2 postOk2 req2).1.head? = some Act.ack := by
  constructor
  · rfl
  · unfold MainPy.process
    repeat' split
    all_goals simp_all

/-- C4 counterexample: the inbound payload carries tenant id `TEVIL`,
which is not in the allow-list, yet `process` lets the request through to
the responder because the gate consults the module-global `TEAM_ID`
fetched at startup, never the request's own tenant identifier. -/
theorem gate_admits_request_from_unlisted_tenant :
    RefactoredMain.has_valid_subscription "TEVIL" = false
    ∧ RefactoredMain.process "T06LP8F3K8V" true "B1" okAgent failFetch true true dmReq
        = [Act.ack, Act.reactAdd "C2", Act.responderCall "price of btc",
           Act.channelPost "C2" "price of btc" (some "2.0")] :=
  ⟨by decide, rfl⟩

/-- C4 amended: `has_valid_subscription` is a pure allow-list lookup, but
`process` applies it to the bot's startup `TEAM_ID`: the outcome is
independent of the payload's `team_id` field (changing it changes
nothing), and when the global `TEAM_ID` is unlisted every request is
stopped with only the advisory. -/
theorem gate_decision_ignores_payload_team_id (TEAM_ID BOT : String)
    (agentRun : String → Except Unit String)
    (fetch : String → String → Except Unit (List SlackMsg))
    (postOk reactOk : Bool) (req : RefactoredMain.SocketReq)
    (tid tid' : Option String)
    (hgate : RefactoredMain.has_valid_subscription TEAM_ID = false) :
    RefactoredMain.process TEAM_ID true BOT agentRun fetch postOk reactOk
        { req with team_id := tid }
      = RefactoredMain.process TEAM_ID true BOT agentRun fetch postOk reactOk
        { req with team_id := tid' }
    ∧ RefactoredMain.process TEAM_ID true BOT agentRun fetch postOk reactOk req
        = Act.ack :: (match req.event.channel with
                      | some ch => [Act.advisory ch]
                      | none => []) := by
  constructor
  · rfl
  · simp [RefactoredMain.process, hgate]

/-- C4 witness: instantiates the amended theorem at the concrete request
`dmReq` with two different payload tenant ids. -/
theorem gate_decision_ignores_payload_team_id_witness :
    RefactoredMain.has_valid_subscription "TX" = false ∧
    (RefactoredMain.process "TX" true "B1" okAgent failFetch true true
        { dmReq with team_id := some "TA" }
      = RefactoredMain.process "TX" true "B1" okAgent failFetch true true
        { dmReq with team_id := some "TB" }
     ∧ RefactoredMain.process "TX" true "B1" okAgent failFetch true true dmReq
        = [Act.ack, Act.advisory "C2"]) :=
  ⟨by decide,
   gate_decision_ignores_payload_team_id "TX" "B1" okAgent failFetch true true
     dmReq (some "TA") (some "TB") (by decide)⟩

/-- C5: a request whose timestamp differs from the current time by more
than 300 seconds is rejected as stale, for every secret, body, supplied
signature and keyed-hash function — the freshness check is decided before
and independently of the signature comparison. -/
theorem stale_request_rejected_regardless_of_signature
    (hmacHex : String → String → String)
    (secret : String) (now ts : Int) (body signature : String)
    (h : (now - ts).natAbs > 60 * 5) :
    MainSocket.verify_slack_signature hmacHex secret now ts body signature
      = Except.error AuthError.staleRequest := by
  unfold MainSocket.verify_slack_signature
  simp [h]

/-- C5 witness: a 1000-second-old request carrying the signature that
would be valid (`hmacHex` returns `aa` and the header is `v0=aa`) is
still rejected as stale. -/
theorem stale_request_rejected_regardless_of_signature_witness :
    ((1000 : Int) - 0).natAbs > 60 * 5 ∧
    MainSocket.verify_slack_signature (fun _ _ => "aa") "s" 1000 0 "b" "v0=aa"
      = Except.error AuthError.staleRequest :=
  ⟨by decide,
   stale_request_rejected_regardless_of_signature (fun _ _ => "aa") "s" 1000 0 "b"
     "v0=aa" (by decide)⟩

/-- C6 counterexample: `main.py`'s `handle_events_api` has no bot-origin
filter: a direct message carrying a `bot_id` marker is processed — the
responder is invoked and a reply is posted back to the channel. -/
theorem mainPy_responds_to_bot_origin_dm :
    MainPy.handle_events_api "B1" "B1" (fun s => Except.ok ("echo " ++ s)) true true
      (some botDmEvent)
      = Except.ok [Act.ack, Act.reactAdd "C1", Act.responderCall "hi",
          Act.channelPost "C1" "DM reply from bot: echo hi" (some "111.222")]
    ∧ Act.responderCall "hi"
        ∈ [Act.ack, Act.reactAdd "C1", Act.responderCall "hi",
           Act.channelPost "C1" "DM reply from bot: echo hi" (some "111.222")] :=
  ⟨rfl, by decide⟩

/-- C6 amended: `main_refactored.py` drops events whose sender is the bot
or which carry a bot-origin marker (no actions at all), and
`main_socket.py`'s `handle_message_event` drops events carrying a
`bot_id` marker; only `main.py` lacks the filter. -/
theorem bot_origin_messages_discarded (BOT : String)
    (agentRun : String → Except Unit String)
    (fetch : String → String → Except Unit (List SlackMsg))
    (postOk reactOk : Bool) (ev : SlackEvent)
    (h : ev.bot_id.isSome ∨ ev.user = some BOT) :
    RefactoredMain.handle_events_api BOT agentRun fetch postOk reactOk ev = []
    ∧ (ev.bot_id.isSome → MainSocket.handle_message_event BOT ev = none) := by
  constructor
  · unfold RefactoredMain.handle_events_api
    rcases h with h | h
    · simp [h]
    · simp [h]
  · intro hb
    unfold MainSocket.handle_message_event
    simp [hb]

/-- C6 witness: instantiates the amended theorem at the concrete
bot-originated direct message. -/
theorem bot_origin_messages_discarded_witness :
    (botDmEvent.bot_id.isSome ∨ botDmEvent.user = some "B1") ∧
    (RefactoredMain.handle_events_api "B1" okAgent failFetch true true botDmEvent = []
     ∧ (botDmEvent.bot_id.isSome
          → MainSocket.handle_message_event "B1" botDmEvent = none)) :=
  ⟨Or.inl (by decide),
   bot_origin_messages_discarded "B1" okAgent failFetch true true botDmEvent
     (Or.inl (by decide))⟩

/-- C7 counterexample: the list comprehension iterates over
`reversed(response["messages"])`, so two fetched replies (oldest first,
as the platform returns them) come out newest first — not in the fetched
oldest-first order the claim states. -/
theorem assembled_context_is_newest_first :
    buildHistoryMessages [⟨some "A", some "x"⟩, ⟨some "B", some "y"⟩]
        = ["<@B>: y", "<@A>: x"]
    ∧ assembleSpecOldestFirst [⟨some "A", some "x"⟩, ⟨some "B", some "y"⟩]
        = ["<@A>: x", "<@B>: y"]
    ∧ (["<@B>: y", "<@A>: x"] : List String) ≠ ["<@A>: x", "<@B>: y"] :=
  ⟨rfl, rfl, by decide⟩

/-- C7 amended: the assembled context consists of exactly the fetched
replies that have both a `user` and a `text` (entries missing either are
excluded), in the reverse of the fetched order — i.e. the reversal is the
only reordering applied on top of the spec's oldest-first assembly. -/
theorem context_is_reverse_of_filtered_replies (msgs : List SlackMsg) :
    buildHistoryMessages msgs = (assembleSpecOldestFirst msgs).reverse := by
  unfold buildHistoryMessages assembleSpecOldestFirst
  exact List.filterMap_reverse formatMsg msgs

/-- C8 counterexample: in the `/summarize` path a failing history fetch
makes the handler return at once — no responder call happens at all,
contradicting the claim that processing continues with an empty context
and the responder is still invoked. -/
theorem summarize_fetch_failure_skips_responder :
    RefactoredMain.handle_slash_command okAgent failFetch true
        (some "/summarize") slackUrl (some "U1") = Except.ok []
    ∧ ∀ p, Act.responderCall p ∉ ([] : List Act) :=
  ⟨rfl, by simp⟩

/-- C8 amended: when the history fetch raises in the `/summarize` path,
the error is indeed not propagated (the handler returns normally), but
the dispatch is aborted: the handler performs no actions, in particular
it never invokes the responder. -/
theorem summarize_fetch_failure_aborts_without_error
    (agentRun : String → Except Unit String)
    (fetch : String → String → Except Unit (List SlackMsg)) (postOk : Bool)
    (text : String) (uid : Option String) (channel ts : String)
    (hx : RefactoredMain.extract_channel_and_ts (pyStrip text)
            = Except.ok (channel, ts))
    (hf : fetch channel ts = Except.error ()) :
    RefactoredMain.handle_slash_command agentRun fetch postOk
        (some "/summarize") text uid = Except.ok [] := by
  unfold RefactoredMain.handle_slash_command
  simp [hx, hf]

/-- C8 witness: instantiates the amended theorem at the sample archive
URL with an always-failing fetch. -/
theorem summarize_fetch_failure_aborts_without_error_witness :
    (RefactoredMain.extract_channel_and_ts (pyStrip slackUrl)
        = Except.ok ("C08L9AWRH4Z", "1743535083.057059")
     ∧ failFetch "C08L9AWRH4Z" "1743535083.057059" = Except.error ())
    ∧ RefactoredMain.handle_slash_command okAgent failFetch true
        (some "/summarize") slackUrl (some "U1") = Except.ok [] :=
  ⟨⟨rfl, rfl⟩,
   summarize_fetch_failure_aborts_without_error okAgent failFetch true slackUrl
     (some "U1") "C08L9AWRH4Z" "1743535083.057059" rfl rfl⟩

/-- C9 counterexample: the socket-transport `/slack/commands` endpoint
admits the unrecognized command `/weather`, schedules the background task
with the raw text as prompt, and that task does invoke the responder —
the claim that unrecognized commands never reach `agent.run` fails. -/
theorem socket_invokes_responder_on_unrecognized_command :
    (MainSocket.slash_commands_dispatch [] "/weather" "hello" "U1").task = some "hello"
    ∧ (MainSocket.run_agent_async okAgent true
        (MainSocket.slash_commands_dispatch [] "/weather" "hello" "U1").tracker
        "U1" "hello" "hello").actions.head? = some (Act.responderCall "hello") :=
  ⟨rfl, rfl⟩

/-- C9 amended: in `main_refactored.py` an unrecognized command is
dropped without any action (no responder call, no post), while in
`main_socket.py` the prompt for an unrecognized command falls through to
the raw text and is still routed to the responder. -/
theorem unrecognized_command_dropped_in_refactored
    (agentRun : String → Except Unit String)
    (fetch : String → String → Except Unit (List SlackMsg)) (postOk : Bool)
    (command text : String) (uid : Option String)
    (h1 : command ≠ "/indo") (h2 : command ≠ "/en") (h3 : command ≠ "/summarize") :
    RefactoredMain.handle_slash_command agentRun fetch postOk (some command) text uid
        = Except.ok []
    ∧ MainSocket.slash_command_prompt command text = text := by
  constructor
  · unfold RefactoredMain.handle_slash_command
    simp [h1, h2, h3]
  · unfold MainSocket.slash_command_prompt
    simp [h1, h2]

/-- C9 witness: instantiates the amended theorem at command `/weather`. -/
theorem unrecognized_command_dropped_in_refactored_witness :
    ("/weather" ≠ "/indo" ∧ "/weather" ≠ "/en" ∧ "/weather" ≠ "/summarize") ∧
    (RefactoredMain.handle_slash_command okAgent failFetch true
        (some "/weather") "hello" (some "U1") = Except.ok []
     ∧ MainSocket.slash_command_prompt "/weather" "hello" = "hello") :=
  ⟨⟨by decide, by decide, by decide⟩,
   unrecognized_command_dropped_in_refactored okAgent failFetch true
     "/weather" "hello" (some "U1") (by decide) (by decide) (by decide)⟩

/-- C10: for every non-bot `app_mention` event, the handler of
`main_refactored.py` takes the exception branch — `str` has no `contains`
attribute, so `text.contains(...)` raises `AttributeError` — and the
trace is exactly the eyes-reaction attempt followed by the generic
apology post: the responder is never invoked and no normal reply is
posted for any mention. -/
theorem mention_handler_always_takes_exception_branch (BOT : String)
    (agentRun : String → Except Unit String)
    (fetch : String → String → Except Unit (List SlackMsg))
    (postOk reactOk : Bool) (ev : SlackEvent)
    (hb : ev.bot_id = none) (hu : ev.user ≠ some BOT)
    (hty : ev.type = some "app_mention") :
    RefactoredMain.handle_events_api BOT agentRun fetch postOk reactOk ev
      = (if reactOk then [Act.reactAdd (optStr ev.channel)] else [])
        ++ [Act.apology (optStr ev.channel)]
    ∧ (∀ p, Act.responderCall p
          ∉ RefactoredMain.handle_events_api BOT agentRun fetch postOk reactOk ev)
    ∧ (∀ c t th, Act.channelPost c t th
          ∉ RefactoredMain.handle_events_api BOT agentRun fetch postOk reactOk ev) := by
  have hs : strHasAttr "contains" = false := by decide
  have hmain : RefactoredMain.handle_events_api BOT agentRun fetch postOk reactOk ev
      = (if reactOk then [Act.reactAdd (optStr ev.channel)] else [])
        ++ [Act.apology (optStr ev.channel)] := by
    unfold RefactoredMain.handle_events_api
    simp [hb, hu, hty, hs]
  refine ⟨hmain, ?_, ?_⟩
  · intro p
    rw [hmain]
    cases reactOk <;> simp
  · intro c t th
    rw [hmain]
    cases reactOk <;> simp

/-- C10 witness: instantiates the theorem at a concrete human mention. -/
theorem mention_handler_always_takes_exception_branch_witness :
    (mentionEvent.bot_id = none ∧ mentionEvent.user ≠ some "B1"
      ∧ mentionEvent.type = some "app_mention") ∧
    (RefactoredMain.handle_events_api "B1" okAgent failFetch true true mentionEvent
      = (if true then [Act.reactAdd (optStr mentionEvent.channel)] else [])
        ++ [Act.apology (optStr mentionEvent.channel)]
     ∧ (∀ p, Act.responderCall p
          ∉ RefactoredMain.handle_events_api "B1" okAgent failFetch true true mentionEvent)
     ∧ (∀ c t th, Act.channelPost c t th
          ∉ RefactoredMain.handle_events_api "B1" okAgent failFetch true true mentionEvent)) :=
  ⟨⟨rfl, by decide, rfl⟩,
   mention_handler_always_takes_exception_branch "B1" okAgent failFetch true true
     mentionEvent rfl (by decide) rfl⟩
